import Mathlib

/-!
# Connection managers of the sharding proxy (`internal/manager.go`)

A shallow embedding of `RelayState`, the two connection managers
(`TxConnManager`, `SessConnManager`), `unRouteWithError` and
`InitClConnection`.

Go values are embedded as follows.

* An interface value (`Shard`, `Server`, `error`, `ConnManager`) is an `Option`:
  `none` is Go's `nil`.
* `*RelayState` is passed in and the updated state is returned.
* `*SpqrClient` is passed in and returned.  The methods of the client and of its
  route (`Send`, `AssignServerConn`, `Route().Unroute`, `Route().GetConn`) are not
  part of `manager.go`; every call made to them is appended to the client's
  `history`, and what they return is supplied by an environment `Env` that may
  depend on the whole history so far.
* A callback that can hit a nil-interface method call returns `Option`; `none`
  is the run-time panic.
-/

namespace Spqr

/-! ## Data model -/

/-- Modelled from the spec: the `Shard` interface is declared outside `manager.go`;
the spec gives a shard a stable name as its identity, and `Name()` is the only
method the managers call. -/
structure Shard where
  Name : String
deriving DecidableEq, Repr

/-- Modelled from the spec: the `Server` interface (one live backend wire
connection) is declared outside `manager.go`; the managers only pass it around,
so a handle is all that is kept. -/
structure Server where
  handle : Nat
deriving DecidableEq, Repr

/-- A non-nil Go `error`; `Error` is the text returned by `err.Error()`. -/
structure GoError where
  Error : String
deriving DecidableEq, Repr

/-- The two fields of `pgproto3.ErrorResponse` that `manager.go` fills in. -/
structure ErrorResponse where
  Severity : String
  Message : String
deriving DecidableEq, Repr

/-- The struct `RelayState` of `manager.go`. -/
structure RelayState where
  TxActive : Bool
  ActiveBackendConn : Option Server
  ActiveShard : Option Shard
deriving DecidableEq, Repr

/-- Modelled from the spec: `config.PoolingMode` and its two constants are declared
outside `manager.go`; the spec names the modes SESSION and TRANSACTION. -/
abbrev PoolingMode := String

/-- Modelled from the spec: the constant `config.PoolingModeSession`. -/
def PoolingModeSession : PoolingMode := "SESSION"

/-- Modelled from the spec: the constant `config.PoolingModeTransaction`. -/
def PoolingModeTransaction : PoolingMode := "TRANSACTION"

/-- The part of the client's matched rule that `InitClConnection` reads. -/
structure Rule where
  PoolingMode : PoolingMode
deriving DecidableEq, Repr

/-- One call made by `manager.go` to the client or to the client's route. -/
inductive Call where
  | unroute (shardName : String)
  | getConn (proto : String) (shard : Option Shard)
  | assignServerConn (conn : Option Server)
  | send (msg : ErrorResponse)
deriving DecidableEq, Repr

/-- What the collaborators return.  Each answer may depend on every call made so far. -/
structure Env where
  Unroute : List Call → String → Option GoError
  GetConn : List Call → String → Option Shard → Option Server × Option GoError
  Send : List Call → ErrorResponse → Option GoError

/-- The client as `manager.go` sees it: its matched rule and the calls made on it. -/
structure SpqrClient where
  Rule : Rule
  history : List Call
deriving DecidableEq, Repr

/-- What a callback leaves behind: the returned `error`, the client and the relay state. -/
structure Outcome where
  err : Option GoError
  client : SpqrClient
  rst : RelayState
deriving DecidableEq, Repr

/-! ## Collaborator calls -/

/-- The call `client.Send(msg)`. -/
def SpqrClient.Send (env : Env) (cl : SpqrClient) (msg : ErrorResponse) :
    Option GoError × SpqrClient :=
  (env.Send cl.history msg, { cl with history := cl.history ++ [Call.send msg] })

/-- The call `client.AssignServerConn(conn)`. -/
def SpqrClient.AssignServerConn (cl : SpqrClient) (conn : Option Server) : SpqrClient :=
  { cl with history := cl.history ++ [Call.assignServerConn conn] }

/-- The call `cl.Route().Unroute(name, cl)`. -/
def SpqrClient.RouteUnroute (env : Env) (cl : SpqrClient) (name : String) :
    Option GoError × SpqrClient :=
  (env.Unroute cl.history name, { cl with history := cl.history ++ [Call.unroute name] })

/-- The call `client.Route().GetConn(proto, shard)`. -/
def SpqrClient.RouteGetConn (env : Env) (cl : SpqrClient) (proto : String)
    (shard : Option Shard) : (Option Server × Option GoError) × SpqrClient :=
  (env.GetConn cl.history proto shard,
    { cl with history := cl.history ++ [Call.getConn proto shard] })

/-! ## `TxConnManager` -/

namespace TxConnManager

/-- The method `(t *TxConnManager) UnRouteCB`. -/
def UnRouteCB (env : Env) (cl : SpqrClient) (rst : RelayState) : Outcome :=
  match rst.ActiveShard with
  | some sh =>
    let r := cl.RouteUnroute env sh.Name
    { err := r.1, client := r.2, rst := rst }
  | none => { err := none, client := cl, rst := rst }

/-- The method `(t *TxConnManager) RouteCB`. -/
def RouteCB (env : Env) (client : SpqrClient) (rst : RelayState) : Outcome :=
  let r := client.RouteGetConn env "tcp6" rst.ActiveShard
  match r.1.2 with
  | some err => { err := some err, client := r.2, rst := rst }
  | none => { err := none, client := r.2.AssignServerConn r.1.1, rst := rst }

/-- The method `(t *TxConnManager) ValidateReRoute`. -/
def ValidateReRoute (rst : RelayState) : Bool :=
  rst.ActiveShard == none || !rst.TxActive

/-- The method `(t *TxConnManager) TXBeginCB`. -/
def TXBeginCB (client : SpqrClient) (rst : RelayState) : Outcome :=
  { err := none, client := client, rst := rst }

/-- The method `(t *TxConnManager) TXEndCB`; with no active shard the call
`rst.ActiveShard.Name()` is a method call on a nil interface and panics. -/
def TXEndCB (env : Env) (client : SpqrClient) (rst : RelayState) : Option Outcome :=
  match rst.ActiveShard with
  | none => none
  | some sh =>
    let r := client.RouteUnroute env sh.Name
    some { err := none, client := r.2, rst := { rst with ActiveShard := none } }

end TxConnManager

/-! ## `SessConnManager` -/

namespace SessConnManager

/-- The method `(s *SessConnManager) UnRouteCB`. -/
def UnRouteCB (env : Env) (cl : SpqrClient) (rst : RelayState) : Outcome :=
  match rst.ActiveShard with
  | some sh =>
    let r := cl.RouteUnroute env sh.Name
    { err := r.1, client := r.2, rst := rst }
  | none => { err := none, client := cl, rst := rst }

/-- The method `(s *SessConnManager) TXBeginCB`. -/
def TXBeginCB (client : SpqrClient) (rst : RelayState) : Outcome :=
  { err := none, client := client, rst := rst }

/-- The method `(s *SessConnManager) TXEndCB`. -/
def TXEndCB (client : SpqrClient) (rst : RelayState) : Outcome :=
  { err := none, client := client, rst := rst }

/-- The method `(s *SessConnManager) RouteCB`. -/
def RouteCB (env : Env) (client : SpqrClient) (rst : RelayState) : Outcome :=
  let r := client.RouteGetConn env "tcp6" rst.ActiveShard
  match r.1.2 with
  | some err => { err := some err, client := r.2, rst := rst }
  | none =>
    { err := none, client := r.2.AssignServerConn r.1.1,
      rst := { rst with ActiveBackendConn := r.1.1 } }

/-- The method `(s *SessConnManager) ValidateReRoute`. -/
def ValidateReRoute (rst : RelayState) : Bool :=
  rst.ActiveShard == none

end SessConnManager

/-! ## The `ConnManager` interface -/

/-- A non-nil `ConnManager`: one of the two implementations in `manager.go`
(both are empty structs, so the implementation is all there is to know). -/
inductive ConnManager where
  | Tx
  | Sess
deriving DecidableEq, Repr

/-- The function `NewTxConnManager`. -/
def NewTxConnManager : ConnManager := ConnManager.Tx

/-- The function `NewSessConnManager`. -/
def NewSessConnManager : ConnManager := ConnManager.Sess

namespace ConnManager

/-- Interface dispatch of `UnRouteCB`. -/
def UnRouteCB (env : Env) (m : ConnManager) (cl : SpqrClient) (rst : RelayState) : Outcome :=
  match m with
  | Tx => TxConnManager.UnRouteCB env cl rst
  | Sess => SessConnManager.UnRouteCB env cl rst

/-- Interface dispatch of `RouteCB`. -/
def RouteCB (env : Env) (m : ConnManager) (cl : SpqrClient) (rst : RelayState) : Outcome :=
  match m with
  | Tx => TxConnManager.RouteCB env cl rst
  | Sess => SessConnManager.RouteCB env cl rst

/-- Interface dispatch of `TXBeginCB`. -/
def TXBeginCB (m : ConnManager) (cl : SpqrClient) (rst : RelayState) : Outcome :=
  match m with
  | Tx => TxConnManager.TXBeginCB cl rst
  | Sess => SessConnManager.TXBeginCB cl rst

/-- Interface dispatch of `TXEndCB`; `none` is the panic of the transaction manager. -/
def TXEndCB (env : Env) (m : ConnManager) (cl : SpqrClient) (rst : RelayState) :
    Option Outcome :=
  match m with
  | Tx => TxConnManager.TXEndCB env cl rst
  | Sess => some (SessConnManager.TXEndCB cl rst)

/-- Interface dispatch of `ValidateReRoute`. -/
def ValidateReRoute (m : ConnManager) (rst : RelayState) : Bool :=
  match m with
  | Tx => TxConnManager.ValidateReRoute rst
  | Sess => SessConnManager.ValidateReRoute rst

end ConnManager

/-- The function `unRouteWithError`.  `UnRouteCB` runs first and its error is dropped;
then `err.Error()` is evaluated, which panics on a nil `err`; then the message is sent. -/
def unRouteWithError (env : Env) (cmngr : ConnManager) (client : SpqrClient)
    (rst : RelayState) (err : Option GoError) : Option Outcome :=
  let o := cmngr.UnRouteCB env client rst
  match err with
  | none => none
  | some e =>
    let r := o.client.Send env { Message := e.Error, Severity := "FATAL" }
    some { err := r.1, client := r.2, rst := o.rst }

/-- The method `(t *TxConnManager) UnRouteWithError`. -/
def TxConnManager.UnRouteWithError (env : Env) (client : SpqrClient) (rst : RelayState)
    (err : Option GoError) : Option Outcome :=
  unRouteWithError env ConnManager.Tx client rst err

/-- The method `(s *SessConnManager) UnRouteWithError`. -/
def SessConnManager.UnRouteWithError (env : Env) (client : SpqrClient) (rst : RelayState)
    (err : Option GoError) : Option Outcome :=
  unRouteWithError env ConnManager.Sess client rst err

/-- Interface dispatch of `UnRouteWithError`. -/
def ConnManager.UnRouteWithError (env : Env) (m : ConnManager) (cl : SpqrClient)
    (rst : RelayState) (err : Option GoError) : Option Outcome :=
  match m with
  | ConnManager.Tx => TxConnManager.UnRouteWithError env cl rst err
  | ConnManager.Sess => SessConnManager.UnRouteWithError env cl rst err

/-! ## `InitClConnection` -/

/-- What `InitClConnection` returns: the manager (`none` is nil), the error, the client. -/
structure InitResult where
  connmanager : Option ConnManager
  err : Option GoError
  client : SpqrClient
deriving DecidableEq, Repr

/-- The `for ... range` loop of the default branch: send the messages in order and
stop at the first failing send. -/
def sendEach (env : Env) (client : SpqrClient) : List ErrorResponse → Option GoError × SpqrClient
  | [] => (none, client)
  | msg :: rest =>
    let r := client.Send env msg
    match r.1 with
    | some err => (some err, r.2)
    | none => sendEach env r.2 rest

/-- The function `InitClConnection`; `errors.Errorf` with the verb `%v` prints the
pooling mode, a string, as it is. -/
def InitClConnection (env : Env) (client : SpqrClient) : InitResult :=
  if client.Rule.PoolingMode = PoolingModeSession then
    { connmanager := some NewSessConnManager, err := none, client := client }
  else if client.Rule.PoolingMode = PoolingModeTransaction then
    { connmanager := some NewTxConnManager, err := none, client := client }
  else
    let r := sendEach env client
      [{ Message := "unknown pooling mode for route", Severity := "ERROR" }]
    match r.1 with
    | some err => { connmanager := none, err := some err, client := r.2 }
    | none =>
      { connmanager := none,
        err := some { Error := "unknown pooling mode " ++ client.Rule.PoolingMode },
        client := r.2 }

/-! ## Observers used in the statements -/

/-- The relay-state invariant of the data model: a backend connection implies a shard. -/
def RelayState.BackendImpliesShard (rst : RelayState) : Prop :=
  rst.ActiveBackendConn ≠ none → rst.ActiveShard ≠ none

/-- The `Route.Unroute` calls in a history, by shard name, in order. -/
def unrouteCalls : List Call → List String
  | [] => []
  | Call.unroute n :: cs => n :: unrouteCalls cs
  | _ :: cs => unrouteCalls cs

/-- The connections handed to `AssignServerConn` in a history, in order. -/
def assignedConns : List Call → List (Option Server)
  | [] => []
  | Call.assignServerConn c :: cs => c :: assignedConns cs
  | _ :: cs => assignedConns cs

/-- The messages sent to the client in a history, in order. -/
def sentMessages : List Call → List ErrorResponse
  | [] => []
  | Call.send m :: cs => m :: sentMessages cs
  | _ :: cs => sentMessages cs

/-! ## Concrete inputs -/

/-- An environment in which every collaborator call succeeds. -/
def envOk : Env where
  Unroute := fun _ _ => none
  GetConn := fun _ _ _ => (some { handle := 7 }, none)
  Send := fun _ _ => none

/-- An environment in which every collaborator call fails. -/
def envFail : Env where
  Unroute := fun _ _ => some { Error := "unroute failed" }
  GetConn := fun _ _ _ => (none, some { Error := "pool exhausted" })
  Send := fun _ _ => some { Error := "broken pipe" }

/-- A freshly accepted client under transaction pooling. -/
def clTx : SpqrClient := { Rule := { PoolingMode := PoolingModeTransaction }, history := [] }

/-- A freshly accepted client whose rule carries a pooling mode that does not exist. -/
def clOdd : SpqrClient := { Rule := { PoolingMode := "STATEMENT" }, history := [] }

/-- A relay state bound to shard `sh1`, with a backend connection, inside a transaction. -/
def rstBound : RelayState :=
  { TxActive := true, ActiveBackendConn := some { handle := 1 },
    ActiveShard := some { Name := "sh1" } }

/-- A relay state bound to shard `sh1` with no backend connection recorded. -/
def rstShardOnly : RelayState :=
  { TxActive := false, ActiveBackendConn := none, ActiveShard := some { Name := "sh1" } }

/-- The initial relay state: nothing bound. -/
def rstFree : RelayState :=
  { TxActive := false, ActiveBackendConn := none, ActiveShard := none }

/-! ## Auxiliary facts about the observers -/

theorem unrouteCalls_append (xs ys : List Call) :
    unrouteCalls (xs ++ ys) = unrouteCalls xs ++ unrouteCalls ys := by
  induction xs with
  | nil => rfl
  | cons c cs ih => cases c <;> simp [unrouteCalls, ih]

theorem assignedConns_append (xs ys : List Call) :
    assignedConns (xs ++ ys) = assignedConns xs ++ assignedConns ys := by
  induction xs with
  | nil => rfl
  | cons c cs ih => cases c <;> simp [assignedConns, ih]

theorem sentMessages_append (xs ys : List Call) :
    sentMessages (xs ++ ys) = sentMessages xs ++ sentMessages ys := by
  induction xs with
  | nil => rfl
  | cons c cs ih => cases c <;> simp [sentMessages, ih]

theorem UnRouteCB_rst (env : Env) (m : ConnManager) (cl : SpqrClient) (rst : RelayState) :
    (m.UnRouteCB env cl rst).rst = rst := by
  cases m <;>
    simp only [ConnManager.UnRouteCB, TxConnManager.UnRouteCB, SessConnManager.UnRouteCB] <;>
    split <;> rfl

theorem UnRouteCB_history (env : Env) (m : ConnManager) (cl : SpqrClient) (rst : RelayState) :
    (m.UnRouteCB env cl rst).client.history =
      cl.history ++ ((rst.ActiveShard.map Shard.Name).toList.map Call.unroute) := by
  cases m <;>
    simp only [ConnManager.UnRouteCB, TxConnManager.UnRouteCB, SessConnManager.UnRouteCB] <;>
    split <;> simp_all [SpqrClient.RouteUnroute]

theorem unrouteCalls_map (ns : List String) : unrouteCalls (ns.map Call.unroute) = ns := by
  induction ns with
  | nil => rfl
  | cons n ns ih => simp [unrouteCalls, ih]

theorem sentMessages_map_unroute (ns : List String) :
    sentMessages (ns.map Call.unroute) = [] := by
  induction ns with
  | nil => rfl
  | cons n ns ih => simp [sentMessages, ih]

/-! ## `ValidateReRoute` -/

/-- C1: `TxConnManager.ValidateReRoute` returns true exactly when `ActiveShard` is unset
or `TxActive` is false; it returns false for every state with a bound shard and an open
transaction. -/
theorem TxConnManager_ValidateReRoute_spec (rst : RelayState) :
    (TxConnManager.ValidateReRoute rst = true ↔
        (rst.ActiveShard = none ∨ rst.TxActive = false)) ∧
    (∀ (sh : Shard) (b : Option Server),
        TxConnManager.ValidateReRoute
          { TxActive := true, ActiveBackendConn := b, ActiveShard := some sh } = false) := by
  constructor
  · cases hs : rst.ActiveShard <;> cases ht : rst.TxActive <;>
      simp [TxConnManager.ValidateReRoute, hs, ht]
  · intro sh b
    simp [TxConnManager.ValidateReRoute]

/-- C2: `SessConnManager.ValidateReRoute` returns true exactly when `ActiveShard` is
unset; the answer does not depend on `TxActive` or `ActiveBackendConn`, and it is false
for every state with a bound shard, open transaction or not. -/
theorem SessConnManager_ValidateReRoute_spec (rst : RelayState) :
    (SessConnManager.ValidateReRoute rst = true ↔ rst.ActiveShard = none) ∧
    (∀ (t : Bool) (b : Option Server),
        SessConnManager.ValidateReRoute
          { TxActive := t, ActiveBackendConn := b, ActiveShard := rst.ActiveShard } =
        SessConnManager.ValidateReRoute rst) ∧
    (∀ (sh : Shard) (t : Bool) (b : Option Server),
        SessConnManager.ValidateReRoute
          { TxActive := t, ActiveBackendConn := b, ActiveShard := some sh } = false) := by
  refine ⟨?_, ?_, ?_⟩
  · cases hs : rst.ActiveShard <;> simp [SessConnManager.ValidateReRoute, hs]
  · intro t b
    simp [SessConnManager.ValidateReRoute]
  · intro sh t b
    simp [SessConnManager.ValidateReRoute]

/-! ## `TxConnManager.TXEndCB` -/

/-- C3, as stated, fails: on a state bound to a shard and holding a backend connection,
`TxConnManager.TXEndCB` returns with `ActiveShard` unset but `ActiveBackendConn` still set. -/
theorem TxConnManager_TXEndCB_keeps_backend :
    ∃ out, TxConnManager.TXEndCB envOk clTx rstBound = some out ∧
      out.rst.ActiveShard = none ∧ out.rst.ActiveBackendConn = some { handle := 1 } :=
  ⟨_, rfl, rfl, rfl⟩

/-- C3, amended: with shard `sh` bound on entry, `TxConnManager.TXEndCB` makes exactly one
collaborator call, `Route.Unroute` with the name of `sh`, drops its result and returns nil;
on return `ActiveShard` is unset while `TxActive` and `ActiveBackendConn` are as on entry. -/
theorem TxConnManager_TXEndCB_spec (env : Env) (client : SpqrClient) (rst : RelayState)
    (sh : Shard) (h : rst.ActiveShard = some sh) :
    TxConnManager.TXEndCB env client rst =
      some { err := none,
             client := { client with history := client.history ++ [Call.unroute sh.Name] },
             rst := { TxActive := rst.TxActive, ActiveBackendConn := rst.ActiveBackendConn,
                      ActiveShard := none } } := by
  simp [TxConnManager.TXEndCB, h, SpqrClient.RouteUnroute]

theorem TxConnManager_TXEndCB_spec_witness :
    rstBound.ActiveShard = some { Name := "sh1" } ∧
    TxConnManager.TXEndCB envFail clTx rstBound =
      some { err := none,
             client := { clTx with history := clTx.history ++ [Call.unroute "sh1"] },
             rst := { TxActive := true, ActiveBackendConn := some { handle := 1 },
                      ActiveShard := none } } :=
  ⟨rfl, TxConnManager_TXEndCB_spec envFail clTx rstBound { Name := "sh1" } rfl⟩

/-! ## `UnRouteCB` -/

/-- C4, as stated, fails for both managers: on a state bound to a shard and holding a
backend connection, `UnRouteCB` returns with `ActiveBackendConn` still set, and a second
`UnRouteCB` on the result issues a second `Route.Unroute` call for the same shard. -/
theorem UnRouteCB_not_clearing_not_idempotent :
    ((TxConnManager.UnRouteCB envOk clTx rstBound).rst.ActiveBackendConn =
        some { handle := 1 } ∧
      (TxConnManager.UnRouteCB envOk clTx rstBound).client.history = [Call.unroute "sh1"] ∧
      (TxConnManager.UnRouteCB envOk (TxConnManager.UnRouteCB envOk clTx rstBound).client
          (TxConnManager.UnRouteCB envOk clTx rstBound).rst).client.history =
        [Call.unroute "sh1", Call.unroute "sh1"]) ∧
    ((SessConnManager.UnRouteCB envOk clTx rstBound).rst.ActiveBackendConn =
        some { handle := 1 } ∧
      (SessConnManager.UnRouteCB envOk clTx rstBound).client.history = [Call.unroute "sh1"] ∧
      (SessConnManager.UnRouteCB envOk (SessConnManager.UnRouteCB envOk clTx rstBound).client
          (SessConnManager.UnRouteCB envOk clTx rstBound).rst).client.history =
        [Call.unroute "sh1", Call.unroute "sh1"]) :=
  ⟨⟨rfl, rfl, rfl⟩, ⟨rfl, rfl, rfl⟩⟩

/-- C4, amended: for both managers `UnRouteCB` leaves the relay state as it was (so
`ActiveBackendConn` is unset on return only if it was unset on entry); it issues one
`Route.Unroute` call, for the active shard's name, when a shard is bound and no call
otherwise, and its only collaborator calls are those; a second `UnRouteCB` on the result
does the same again, so it is a no-op only when no shard is bound. -/
theorem UnRouteCB_spec (env : Env) (m : ConnManager) (cl : SpqrClient) (rst : RelayState) :
    (m.UnRouteCB env cl rst).rst = rst ∧
    (m.UnRouteCB env cl rst).client.history =
      cl.history ++ ((rst.ActiveShard.map Shard.Name).toList.map Call.unroute) ∧
    unrouteCalls (m.UnRouteCB env cl rst).client.history =
      unrouteCalls cl.history ++ (rst.ActiveShard.map Shard.Name).toList ∧
    (m.UnRouteCB env (m.UnRouteCB env cl rst).client (m.UnRouteCB env cl rst).rst).rst = rst ∧
    unrouteCalls
        (m.UnRouteCB env (m.UnRouteCB env cl rst).client (m.UnRouteCB env cl rst).rst).client.history =
      unrouteCalls cl.history ++ (rst.ActiveShard.map Shard.Name).toList ++
        (rst.ActiveShard.map Shard.Name).toList := by
  refine ⟨UnRouteCB_rst env m cl rst, UnRouteCB_history env m cl rst, ?_, ?_, ?_⟩
  · rw [UnRouteCB_history, unrouteCalls_append, unrouteCalls_map]
  · rw [UnRouteCB_rst, UnRouteCB_rst]
  · rw [UnRouteCB_history, UnRouteCB_rst, UnRouteCB_history, unrouteCalls_append,
      unrouteCalls_append, unrouteCalls_map]

/-! ## `RouteCB` -/

theorem RouteCB_history_ok (env : Env) (m : ConnManager) (client : SpqrClient)
    (rst : RelayState) (c : Option Server)
    (h : env.GetConn client.history "tcp6" rst.ActiveShard = (c, none)) :
    (m.RouteCB env client rst).err = none ∧
    (m.RouteCB env client rst).client.history =
      client.history ++ [Call.getConn "tcp6" rst.ActiveShard, Call.assignServerConn c] := by
  cases m <;>
    simp [ConnManager.RouteCB, TxConnManager.RouteCB, SessConnManager.RouteCB,
      SpqrClient.RouteGetConn, SpqrClient.AssignServerConn, h]

/-- C5, as stated, fails: with shard `sh1` bound and `GetConn` succeeding with connection 7,
`TxConnManager.RouteCB` returns nil but leaves `ActiveBackendConn` unset, and the connection
is handed to the client's `AssignServerConn`. -/
theorem TxConnManager_RouteCB_assigns_client_slot :
    (TxConnManager.RouteCB envOk clTx rstShardOnly).err = none ∧
    (TxConnManager.RouteCB envOk clTx rstShardOnly).rst.ActiveBackendConn = none ∧
    assignedConns (TxConnManager.RouteCB envOk clTx rstShardOnly).client.history =
      [some { handle := 7 }] :=
  ⟨rfl, rfl, rfl⟩

/-- C5, amended: when the route's `GetConn` for `rst.ActiveShard` succeeds with connection
`c`, `TxConnManager.RouteCB` returns nil after exactly two collaborator calls, that `GetConn`
over `tcp6` and then `AssignServerConn c` on the client, so `c` goes to the client's
server-connection slot; `ActiveShard` and `TxActive` are as on entry. -/
theorem TxConnManager_RouteCB_spec (env : Env) (client : SpqrClient) (rst : RelayState)
    (c : Option Server)
    (h : env.GetConn client.history "tcp6" rst.ActiveShard = (c, none)) :
    (TxConnManager.RouteCB env client rst).err = none ∧
    (TxConnManager.RouteCB env client rst).client.history =
      client.history ++ [Call.getConn "tcp6" rst.ActiveShard, Call.assignServerConn c] ∧
    assignedConns (TxConnManager.RouteCB env client rst).client.history =
      assignedConns client.history ++ [c] ∧
    (TxConnManager.RouteCB env client rst).rst.ActiveShard = rst.ActiveShard ∧
    (TxConnManager.RouteCB env client rst).rst.TxActive = rst.TxActive := by
  have hh := RouteCB_history_ok env ConnManager.Tx client rst c h
  simp only [ConnManager.RouteCB] at hh
  refine ⟨hh.1, hh.2, ?_, ?_, ?_⟩
  · rw [hh.2, assignedConns_append]
    rfl
  · simp [TxConnManager.RouteCB, SpqrClient.RouteGetConn, h]
  · simp [TxConnManager.RouteCB, SpqrClient.RouteGetConn, h]

theorem TxConnManager_RouteCB_spec_witness :
    envOk.GetConn clTx.history "tcp6" rstShardOnly.ActiveShard = (some { handle := 7 }, none) ∧
    ((TxConnManager.RouteCB envOk clTx rstShardOnly).err = none ∧
    (TxConnManager.RouteCB envOk clTx rstShardOnly).client.history =
      clTx.history ++ [Call.getConn "tcp6" rstShardOnly.ActiveShard,
        Call.assignServerConn (some { handle := 7 })] ∧
    assignedConns (TxConnManager.RouteCB envOk clTx rstShardOnly).client.history =
      assignedConns clTx.history ++ [some { handle := 7 }] ∧
    (TxConnManager.RouteCB envOk clTx rstShardOnly).rst.ActiveShard = rstShardOnly.ActiveShard ∧
    (TxConnManager.RouteCB envOk clTx rstShardOnly).rst.TxActive = rstShardOnly.TxActive) :=
  ⟨rfl, TxConnManager_RouteCB_spec envOk clTx rstShardOnly (some { handle := 7 }) rfl⟩

/-- C6: with a shard bound, when the route's `GetConn` for it succeeds with connection `c`,
`SessConnManager.RouteCB` returns nil, has put `c` in `ActiveBackendConn` and has handed the
same `c` to the client's `AssignServerConn` (its only assignment), and `ActiveShard` and
`TxActive` are unchanged. -/
theorem SessConnManager_RouteCB_spec (env : Env) (client : SpqrClient) (rst : RelayState)
    (sh : Shard) (c : Option Server) (hsh : rst.ActiveShard = some sh)
    (h : env.GetConn client.history "tcp6" (some sh) = (c, none)) :
    (SessConnManager.RouteCB env client rst).err = none ∧
    (SessConnManager.RouteCB env client rst).rst.ActiveBackendConn = c ∧
    (SessConnManager.RouteCB env client rst).client.history =
      client.history ++ [Call.getConn "tcp6" (some sh), Call.assignServerConn c] ∧
    assignedConns (SessConnManager.RouteCB env client rst).client.history =
      assignedConns client.history ++ [c] ∧
    (SessConnManager.RouteCB env client rst).rst.ActiveShard = some sh ∧
    (SessConnManager.RouteCB env client rst).rst.TxActive = rst.TxActive := by
  have h2 : env.GetConn client.history "tcp6" rst.ActiveShard = (c, none) := by rw [hsh]; exact h
  have hh := RouteCB_history_ok env ConnManager.Sess client rst c h2
  simp only [ConnManager.RouteCB, hsh] at hh
  refine ⟨hh.1, ?_, hh.2, ?_, ?_, ?_⟩
  · simp [SessConnManager.RouteCB, SpqrClient.RouteGetConn, h2]
  · rw [hh.2, assignedConns_append]
    rfl
  · simp [SessConnManager.RouteCB, SpqrClient.RouteGetConn, hsh, h]
  · simp [SessConnManager.RouteCB, SpqrClient.RouteGetConn, h2]

theorem SessConnManager_RouteCB_spec_witness :
    rstShardOnly.ActiveShard = some { Name := "sh1" } ∧
    envOk.GetConn clTx.history "tcp6" (some { Name := "sh1" }) = (some { handle := 7 }, none) ∧
    ((SessConnManager.RouteCB envOk clTx rstShardOnly).err = none ∧
    (SessConnManager.RouteCB envOk clTx rstShardOnly).rst.ActiveBackendConn =
      some { handle := 7 } ∧
    (SessConnManager.RouteCB envOk clTx rstShardOnly).client.history =
      clTx.history ++ [Call.getConn "tcp6" (some { Name := "sh1" }),
        Call.assignServerConn (some { handle := 7 })] ∧
    assignedConns (SessConnManager.RouteCB envOk clTx rstShardOnly).client.history =
      assignedConns clTx.history ++ [some { handle := 7 }] ∧
    (SessConnManager.RouteCB envOk clTx rstShardOnly).rst.ActiveShard =
      some { Name := "sh1" } ∧
    (SessConnManager.RouteCB envOk clTx rstShardOnly).rst.TxActive = rstShardOnly.TxActive) :=
  ⟨rfl, rfl,
    SessConnManager_RouteCB_spec envOk clTx rstShardOnly { Name := "sh1" }
      (some { handle := 7 }) rfl rfl⟩

/-- C9: for both managers, when the route's `GetConn` fails with error `e`, `RouteCB` returns
exactly `e`, the relay state is unchanged, `GetConn` is the only collaborator call made and
nothing is handed to the client's `AssignServerConn`. -/
theorem RouteCB_failure_atomic (env : Env) (m : ConnManager) (client : SpqrClient)
    (rst : RelayState) (c : Option Server) (e : GoError)
    (h : env.GetConn client.history "tcp6" rst.ActiveShard = (c, some e)) :
    (m.RouteCB env client rst).err = some e ∧
    (m.RouteCB env client rst).rst = rst ∧
    (m.RouteCB env client rst).client.history =
      client.history ++ [Call.getConn "tcp6" rst.ActiveShard] ∧
    assignedConns (m.RouteCB env client rst).client.history =
      assignedConns client.history := by
  cases m <;>
    simp [ConnManager.RouteCB, TxConnManager.RouteCB, SessConnManager.RouteCB,
      SpqrClient.RouteGetConn, h, assignedConns_append, assignedConns]

theorem RouteCB_failure_atomic_witness :
    envFail.GetConn clTx.history "tcp6" rstShardOnly.ActiveShard =
      (none, some { Error := "pool exhausted" }) ∧
    ((ConnManager.Sess.RouteCB envFail clTx rstShardOnly).err =
      some { Error := "pool exhausted" } ∧
    (ConnManager.Sess.RouteCB envFail clTx rstShardOnly).rst = rstShardOnly ∧
    (ConnManager.Sess.RouteCB envFail clTx rstShardOnly).client.history =
      clTx.history ++ [Call.getConn "tcp6" rstShardOnly.ActiveShard] ∧
    assignedConns (ConnManager.Sess.RouteCB envFail clTx rstShardOnly).client.history =
      assignedConns clTx.history) :=
  ⟨rfl, RouteCB_failure_atomic envFail ConnManager.Sess clTx rstShardOnly none
    { Error := "pool exhausted" } rfl⟩

/-! ## The invariant "a backend connection implies a shard" -/

/-- C7, as stated, fails: the state bound to `sh1` with a backend connection satisfies the
invariant, `TxConnManager.TXEndCB` returns on it, and the state it leaves has a backend
connection and no shard. -/
theorem TxConnManager_TXEndCB_breaks_invariant :
    rstBound.BackendImpliesShard ∧
    ∃ out, TxConnManager.TXEndCB envOk clTx rstBound = some out ∧
      ¬ out.rst.BackendImpliesShard := by
  refine ⟨fun _ h => (by cases h), _, rfl, ?_⟩
  intro h
  exact h (fun h2 => by cases h2) rfl

/-- C7, amended: if the invariant holds on entry, it holds on return from `RouteCB` (called
with a shard bound), `UnRouteCB` and `TXBeginCB` of both managers and from
`SessConnManager.TXEndCB`; `TxConnManager.TXEndCB`, called with a shard bound, returns and
keeps the invariant when `ActiveBackendConn` is unset on entry. -/
theorem BackendImpliesShard_preserved (env : Env) (m : ConnManager) (cl : SpqrClient)
    (rst : RelayState) (hinv : rst.BackendImpliesShard) :
    (rst.ActiveShard ≠ none → (m.RouteCB env cl rst).rst.BackendImpliesShard) ∧
    (m.UnRouteCB env cl rst).rst.BackendImpliesShard ∧
    (m.TXBeginCB cl rst).rst.BackendImpliesShard ∧
    (SessConnManager.TXEndCB cl rst).rst.BackendImpliesShard ∧
    (rst.ActiveShard ≠ none → rst.ActiveBackendConn = none →
      ∃ out, TxConnManager.TXEndCB env cl rst = some out ∧ out.rst.BackendImpliesShard) := by
  refine ⟨?_, ?_, ?_, hinv, ?_⟩
  · intro hsh
    cases m
    · simp only [ConnManager.RouteCB, TxConnManager.RouteCB]
      split <;> exact hinv
    · simp only [ConnManager.RouteCB, SessConnManager.RouteCB]
      split
      · exact hinv
      · intro _
        exact hsh
  · rw [UnRouteCB_rst]
    exact hinv
  · cases m <;> exact hinv
  · intro hsh hb
    cases hs : rst.ActiveShard with
    | none => exact absurd hs hsh
    | some sh =>
      simp only [TxConnManager.TXEndCB, hs]
      exact ⟨_, rfl, fun hne => absurd hb hne⟩

theorem BackendImpliesShard_preserved_witness :
    rstShardOnly.BackendImpliesShard ∧
    ((rstShardOnly.ActiveShard ≠ none →
      (ConnManager.Tx.RouteCB envOk clTx rstShardOnly).rst.BackendImpliesShard) ∧
    (ConnManager.Tx.UnRouteCB envOk clTx rstShardOnly).rst.BackendImpliesShard ∧
    (ConnManager.Tx.TXBeginCB clTx rstShardOnly).rst.BackendImpliesShard ∧
    (SessConnManager.TXEndCB clTx rstShardOnly).rst.BackendImpliesShard ∧
    (rstShardOnly.ActiveShard ≠ none → rstShardOnly.ActiveBackendConn = none →
      ∃ out, TxConnManager.TXEndCB envOk clTx rstShardOnly = some out ∧
        out.rst.BackendImpliesShard)) :=
  ⟨fun h => absurd rfl h,
    BackendImpliesShard_preserved envOk ConnManager.Tx clTx rstShardOnly
      (fun h => absurd rfl h)⟩

/-! ## `InitClConnection` -/

/-- C8: `InitClConnection` returns a `SessConnManager` and no error for the SESSION mode,
a `TxConnManager` and no error for the TRANSACTION mode, both without any call on the
client; for every other mode it returns no manager and a non-nil error (the error of the
send when the send fails, the "unknown pooling mode" error otherwise) after exactly one
send, of the ErrorResponse with Severity "ERROR" and Message "unknown pooling mode for
route"; it returns an error exactly when the mode is neither of the two. -/
theorem InitClConnection_spec (env : Env) (client : SpqrClient) :
    (client.Rule.PoolingMode = PoolingModeSession →
      InitClConnection env client =
        { connmanager := some ConnManager.Sess, err := none, client := client }) ∧
    (client.Rule.PoolingMode = PoolingModeTransaction →
      InitClConnection env client =
        { connmanager := some ConnManager.Tx, err := none, client := client }) ∧
    (client.Rule.PoolingMode ≠ PoolingModeSession →
      client.Rule.PoolingMode ≠ PoolingModeTransaction →
      (InitClConnection env client).connmanager = none ∧
      (InitClConnection env client).err =
        some ((env.Send client.history
            { Severity := "ERROR", Message := "unknown pooling mode for route" }).getD
          { Error := "unknown pooling mode " ++ client.Rule.PoolingMode }) ∧
      (InitClConnection env client).client.history =
        client.history ++
          [Call.send { Severity := "ERROR", Message := "unknown pooling mode for route" }]) ∧
    ((InitClConnection env client).err ≠ none ↔
      (client.Rule.PoolingMode ≠ PoolingModeSession ∧
        client.Rule.PoolingMode ≠ PoolingModeTransaction)) := by
  have hne : PoolingModeTransaction ≠ PoolingModeSession := by decide
  refine ⟨?_, ?_, ?_, ?_⟩
  · intro h
    simp [InitClConnection, h, NewSessConnManager]
  · intro h
    simp [InitClConnection, h, hne, NewTxConnManager]
  · intro h1 h2
    cases hs : env.Send client.history
        { Severity := "ERROR", Message := "unknown pooling mode for route" } <;>
      simp [InitClConnection, h1, h2, sendEach, SpqrClient.Send, hs]
  · by_cases h1 : client.Rule.PoolingMode = PoolingModeSession
    · simp [InitClConnection, h1]
    · by_cases h2 : client.Rule.PoolingMode = PoolingModeTransaction
      · simp [InitClConnection, h2, hne]
      · cases hs : env.Send client.history
            { Severity := "ERROR", Message := "unknown pooling mode for route" } <;>
          simp [InitClConnection, h1, h2, sendEach, SpqrClient.Send, hs]

theorem InitClConnection_spec_witness :
    (clOdd.Rule.PoolingMode ≠ PoolingModeSession ∧
      clOdd.Rule.PoolingMode ≠ PoolingModeTransaction) ∧
    ((InitClConnection envOk clOdd).connmanager = none ∧
      (InitClConnection envOk clOdd).err =
        some ((envOk.Send clOdd.history
            { Severity := "ERROR", Message := "unknown pooling mode for route" }).getD
          { Error := "unknown pooling mode " ++ clOdd.Rule.PoolingMode }) ∧
      (InitClConnection envOk clOdd).client.history =
        clOdd.history ++
          [Call.send { Severity := "ERROR", Message := "unknown pooling mode for route" }]) :=
  ⟨⟨by decide, by decide⟩,
    (InitClConnection_spec envOk clOdd).2.2.1 (by decide) (by decide)⟩

/-! ## `UnRouteWithError` -/

/-- C10: for both managers and every non-nil error `e`, `UnRouteWithError` returns; what it
does is one `UnRouteCB` followed by one send of the ErrorResponse with Severity "FATAL" and
Message `e.Error()`; the send happens whatever `UnRouteCB` returned, its result is the value
returned, it is the only message sent, and the relay state is left as it was. -/
theorem UnRouteWithError_spec (env : Env) (m : ConnManager) (client : SpqrClient)
    (rst : RelayState) (e : GoError) :
    m.UnRouteWithError env client rst (some e) =
      some { err := env.Send (m.UnRouteCB env client rst).client.history
                      { Severity := "FATAL", Message := e.Error },
             client :=
               { Rule := (m.UnRouteCB env client rst).client.Rule,
                 history := (m.UnRouteCB env client rst).client.history ++
                   [Call.send { Severity := "FATAL", Message := e.Error }] },
             rst := (m.UnRouteCB env client rst).rst } ∧
    (∃ out, m.UnRouteWithError env client rst (some e) = some out ∧
      sentMessages out.client.history =
        sentMessages client.history ++ [{ Severity := "FATAL", Message := e.Error }] ∧
      unrouteCalls out.client.history =
        unrouteCalls client.history ++ (rst.ActiveShard.map Shard.Name).toList ∧
      out.rst = rst) := by
  have key : m.UnRouteWithError env client rst (some e) =
      some { err := env.Send (m.UnRouteCB env client rst).client.history
                      { Severity := "FATAL", Message := e.Error },
             client :=
               { Rule := (m.UnRouteCB env client rst).client.Rule,
                 history := (m.UnRouteCB env client rst).client.history ++
                   [Call.send { Severity := "FATAL", Message := e.Error }] },
             rst := (m.UnRouteCB env client rst).rst } := by
    cases m <;> rfl
  refine ⟨key, _, key, ?_, ?_, ?_⟩
  · simp [UnRouteCB_history, sentMessages_append, sentMessages_map_unroute, sentMessages]
  · simp [UnRouteCB_history, unrouteCalls_append, unrouteCalls_map, unrouteCalls]
  · exact UnRouteCB_rst env m client rst

end Spqr
